import Mathlib

/-
Shallow embedding of gpython's py/function.go: the Function object, its
construction (NewFunction), call dispatch (M__call__), the descriptor get
protocol (M__get__), and the accessor table installed in init() for
__code__, __defaults__, __kwdefaults__, __annotations__, __dict__,
__name__ and __qualname__.

Modelling conventions:
- Go interface values of type py.Object are the inductive `Object`;
  only the variants this file manipulates are distinguished (None,
  String, Tuple, StringDict, *Code, Cell). Everything else the
  interpreter could pass behaves uniformly in this file, so one extra
  constructor per relevant Go type suffices for the type switches.
- Go nil slices and nil maps are modelled as the empty list: this file
  never compares these fields against nil, and len/iteration/passing
  treat nil and empty identically, so the two are observationally equal
  here. "Absent" in the spec is that nil/empty value.
- panic(ExceptionNewf(...)) in a setter is modelled as Except.error:
  the panic aborts the assignment, so the original Function value is
  untouched exactly when the result is an error.
- VmEvalCodeEx is external (out of scope per the spec): it is a
  parameter, returning a Go-style (result, error) pair.
-/

namespace PyFunc

mutual

/-- A dynamic value of the interpreter, as seen by function.go. -/
inductive Object where
  | none : Object
  | str : String → Object
  | int : Int → Object
  | tuple : List Object → Object
  | dict : List (String × Object) → Object
  | code : Code → Object
  | cell : Nat → Object

/-- The immutable code artifact: the fields of py.Code that function.go
reads (Name, Consts, Freevars). -/
inductive Code where
  | mk : String → List Object → List String → Code

end

/-- Projection: the code artifact's name. -/
def Code.Name : Code → String
  | .mk n _ _ => n

/-- Projection: the code artifact's constants. -/
def Code.Consts : Code → List Object
  | .mk _ c _ => c

/-- Projection: the code artifact's free-variable names. -/
def Code.Freevars : Code → List String
  | .mk _ _ fv => fv

/-- py.Tuple: an ordered sequence value. -/
abbrev Tuple := List Object

/-- py.StringDict: a string-keyed mapping (Go map; keys unique, lookup
modelled as first match). -/
abbrev StringDict := List (String × Object)

/-- Go map lookup `d[k]` returning (value, ok) as an Option. -/
def sdLookup (d : StringDict) (k : String) : Option Object :=
  (d.find? (fun p => p.1 = k)).map (fun p => p.2)

/-- NewStringDict() : a fresh empty local scope. -/
def NewStringDict : StringDict := []

/-- The py.Function struct, field for field. -/
structure Function where
  Code : Code
  Globals : StringDict
  Defaults : Tuple
  KwDefaults : StringDict
  Closure : Tuple
  Doc : Object
  Name : String
  Dict : StringDict
  Weakreflist : List Object
  Module : Object
  Annotations : StringDict
  Qualname : String

/-- The exception classes this file raises. -/
inductive ExcType where
  | TypeError : ExcType
  | ValueError : ExcType

/-- An exception value: class plus rendered message, as built by
ExceptionNewf. -/
structure Exn where
  excType : ExcType
  msg : String

/-- Is this value the None singleton (Go: `instance != None` negated)? -/
def Object.isNone : Object → Bool
  | Object.none => true
  | _ => false

/-- Does the Go type assertion `value.(Tuple)` succeed? -/
def Object.isTuple : Object → Bool
  | Object.tuple _ => true
  | _ => false

/-- Does the Go type assertion `value.(StringDict)` succeed? -/
def Object.isStringDict : Object → Bool
  | Object.dict _ => true
  | _ => false

/-- Does the Go type assertion `value.(String)` succeed? -/
def Object.isStr : Object → Bool
  | Object.str _ => true
  | _ => false

/-- NewFunction(code, globals, qualname): doc from the first constant if
it is a String else None; module from globals["__name__"] if present
else None; qualname defaults to code.Name when empty; remaining fields
are Go zero values (nil, modelled empty). -/
def NewFunction (code : Code) (globals : StringDict) (qualname : String) : Function :=
  let doc : Object :=
    match code.Consts.head? with
    | some d => match d with
                | Object.str s => Object.str s
                | _ => Object.none
    | Option.none => Object.none
  let module : Object :=
    match sdLookup globals "__name__" with
    | some moduleobj => moduleobj
    | Option.none => Object.none
  let qualname : String := if qualname = "" then code.Name else qualname
  { Code := code
    Qualname := qualname
    Globals := globals
    Name := code.Name
    Doc := doc
    Module := module
    Defaults := []
    KwDefaults := []
    Closure := []
    Dict := []
    Weakreflist := []
    Annotations := [] }

/-- The external evaluator VmEvalCodeEx(code, globals, locals, args,
kwargs, defaults, kwdefaults, closure), returning a Go (Object, error)
pair with error type ε. -/
def EvalT (ε : Type) : Type :=
  Code → StringDict → StringDict → Tuple → StringDict → Tuple → StringDict → Tuple →
    Object × Option ε

/-- Function.M__call__: calls VmEvalCodeEx once with the function's
code, globals, a fresh empty local scope, the given args/kwargs and the
current Defaults/KwDefaults/Closure; panics (error) if err != nil, else
returns the result. The second component is the Function value after
the call (the method assigns to no field). -/
def M__call__ {ε : Type} (eval : EvalT ε) (f : Function) (args : Tuple)
    (kwargs : StringDict) : Except ε Object × Function :=
  let r := eval f.Code f.Globals NewStringDict args kwargs f.Defaults f.KwDefaults f.Closure
  match r.2 with
  | some err => (Except.error err, f)
  | Option.none => (Except.ok r.1, f)

/-- Result of the descriptor get protocol: the function itself, or a
bound method pairing an instance with the function. -/
inductive BindResult where
  | function : Function → BindResult
  | boundMethod : Object → Function → BindResult

/-- The underlying Function of a binding result. -/
def BindResult.fn : BindResult → Function
  | .function f => f
  | .boundMethod _ f => f

/-- Function.M__get__: if instance != None return
NewBoundMethod(instance, f), else return f. -/
def M__get__ (f : Function) (inst : Object) (owner : Object) : BindResult :=
  if inst.isNone = false then
    BindResult.boundMethod inst f
  else
    BindResult.function f

/-- The ValueError message of the __code__ setter:
"%s() requires a code object with %d free vars, not %d" formatted with
(f.Name, nclosure, nfree) — it names the expected (closure-length) and
actual (free-variable) counts. -/
def codeMismatchMsg (name : String) (nclosure nfree : Nat) : String :=
  name ++ "() requires a code object with " ++ toString nclosure ++
    " free vars, not " ++ toString nfree

/-- Fget of __code__. -/
def codeFget (f : Function) : Object := Object.code f.Code

/-- Fset of __code__: TypeError unless the value is a code object;
ValueError unless its free-var count equals the closure length. -/
def codeFset (f : Function) (value : Object) : Except Exn Function :=
  match value with
  | Object.code code =>
    let nfree := code.Freevars.length
    let nclosure := f.Closure.length
    if nfree ≠ nclosure then
      Except.error ⟨ExcType.ValueError, codeMismatchMsg f.Name nclosure nfree⟩
    else
      Except.ok { f with Code := code }
  | _ => Except.error ⟨ExcType.TypeError, "__code__ must be set to a code object"⟩

/-- Fget of __defaults__. -/
def defaultsFget (f : Function) : Object := Object.tuple f.Defaults

/-- Fset of __defaults__: TypeError unless the value is a Tuple. -/
def defaultsFset (f : Function) (value : Object) : Except Exn Function :=
  match value with
  | Object.tuple defaults => Except.ok { f with Defaults := defaults }
  | _ => Except.error ⟨ExcType.TypeError, "__defaults__ must be set to a tuple object"⟩

/-- Fdel of __defaults__: sets the field to nil. -/
def defaultsFdel (f : Function) : Function := { f with Defaults := [] }

/-- Fget of __kwdefaults__. -/
def kwdefaultsFget (f : Function) : Object := Object.dict f.KwDefaults

/-- Fset of __kwdefaults__: TypeError unless the value is a StringDict. -/
def kwdefaultsFset (f : Function) (value : Object) : Except Exn Function :=
  match value with
  | Object.dict kwdefaults => Except.ok { f with KwDefaults := kwdefaults }
  | _ => Except.error ⟨ExcType.TypeError, "__kwdefaults__ must be set to a dict object"⟩

/-- Fdel of __kwdefaults__: sets the field to nil. -/
def kwdefaultsFdel (f : Function) : Function := { f with KwDefaults := [] }

/-- Fget of __annotations__. -/
def annotationsFget (f : Function) : Object := Object.dict f.Annotations

/-- Fset of __annotations__: TypeError unless the value is a StringDict. -/
def annotationsFset (f : Function) (value : Object) : Except Exn Function :=
  match value with
  | Object.dict a => Except.ok { f with Annotations := a }
  | _ => Except.error ⟨ExcType.TypeError, "__annotations__ must be set to a dict object"⟩

/-- Fdel of __annotations__: sets the field to nil. -/
def annotationsFdel (f : Function) : Function := { f with Annotations := [] }

/-- Fget of __dict__. -/
def dictFget (f : Function) : Object := Object.dict f.Dict

/-- Fset of __dict__: TypeError unless the value is a StringDict. -/
def dictFset (f : Function) (value : Object) : Except Exn Function :=
  match value with
  | Object.dict d => Except.ok { f with Dict := d }
  | _ => Except.error ⟨ExcType.TypeError, "__dict__ must be set to a dict object"⟩

/-- Fdel of __dict__: sets the field to nil. -/
def dictFdel (f : Function) : Function := { f with Dict := [] }

/-- Fget of __name__. -/
def nameFget (f : Function) : Object := Object.str f.Name

/-- Fset of __name__: TypeError unless the value is a String. -/
def nameFset (f : Function) (value : Object) : Except Exn Function :=
  match value with
  | Object.str name => Except.ok { f with Name := name }
  | _ => Except.error ⟨ExcType.TypeError, "__name__ must be set to a string object"⟩

/-- Fget of __qualname__. -/
def qualnameFget (f : Function) : Object := Object.str f.Qualname

/-- Fset of __qualname__: TypeError unless the value is a String. -/
def qualnameFset (f : Function) (value : Object) : Except Exn Function :=
  match value with
  | Object.str qualname => Except.ok { f with Qualname := qualname }
  | _ => Except.error ⟨ExcType.TypeError, "__qualname__ must be set to a string object"⟩

/-- A descriptor entry of FunctionType.Dict: getter always present,
setter and deleter optional (Go nil func fields). -/
structure Property where
  Fget : Function → Object
  Fset : Option (Function → Object → Except Exn Function)
  Fdel : Option (Function → Function)

/-- The accessor table installed by init() into FunctionType.Dict. -/
def FunctionTypeDict : List (String × Property) :=
  [ ("__code__", ⟨codeFget, some codeFset, Option.none⟩)
  , ("__defaults__", ⟨defaultsFget, some defaultsFset, some defaultsFdel⟩)
  , ("__kwdefaults__", ⟨kwdefaultsFget, some kwdefaultsFset, some kwdefaultsFdel⟩)
  , ("__annotations__", ⟨annotationsFget, some annotationsFset, some annotationsFdel⟩)
  , ("__dict__", ⟨dictFget, some dictFset, some dictFdel⟩)
  , ("__name__", ⟨nameFget, some nameFset, Option.none⟩)
  , ("__qualname__", ⟨qualnameFget, some qualnameFset, Option.none⟩) ]

/-- The seven attributes of the accessor table. -/
inductive Attr where
  | code | defaults | kwdefaults | annots | dict | name | qualname

/-- Getter of an attribute of the table. -/
def fgetAttr : Attr → Function → Object
  | .code, f => codeFget f
  | .defaults, f => defaultsFget f
  | .kwdefaults, f => kwdefaultsFget f
  | .annots, f => annotationsFget f
  | .dict, f => dictFget f
  | .name, f => nameFget f
  | .qualname, f => qualnameFget f

/-- Setter of an attribute of the table (all seven have one). -/
def fsetAttr : Attr → Function → Object → Except Exn Function
  | .code, f, v => codeFset f v
  | .defaults, f, v => defaultsFset f v
  | .kwdefaults, f, v => kwdefaultsFset f v
  | .annots, f, v => annotationsFset f v
  | .dict, f, v => dictFset f v
  | .name, f, v => nameFset f v
  | .qualname, f, v => qualnameFset f v

/-- Deleter of an attribute of the table; none where the Go Fdel field
is nil (__code__, __name__, __qualname__). -/
def fdelAttr : Attr → Function → Option Function
  | .code, _ => Option.none
  | .defaults, f => some (defaultsFdel f)
  | .kwdefaults, f => some (kwdefaultsFdel f)
  | .annots, f => some (annotationsFdel f)
  | .dict, f => some (dictFdel f)
  | .name, _ => Option.none
  | .qualname, _ => Option.none

/-- One operation against the accessor table. -/
inductive AccessorOp where
  | get : Attr → AccessorOp
  | set : Attr → Object → AccessorOp
  | del : Attr → AccessorOp

/-- The Function state after a successful accessor operation; none when
the operation fails (setter raises) or is unavailable (no deleter). -/
def applyOp : AccessorOp → Function → Option Function
  | .get _, f => some f
  | .set a v, f =>
    match fsetAttr a f v with
    | Except.ok f' => some f'
    | Except.error _ => Option.none
  | .del a, f => fdelAttr a f

/-- The central cross-field invariant: the closure length equals the
code artifact's free-variable count whenever both are non-empty. -/
def closureInvariant (f : Function) : Prop :=
  f.Closure.length ≠ 0 → f.Code.Freevars.length ≠ 0 →
    f.Closure.length = f.Code.Freevars.length

/-- Sample code artifact with no free variables. -/
def egCode0 : Code := Code.mk "f" [] []

/-- Sample code artifact with one free variable. -/
def egCode1 : Code := Code.mk "g" [] ["a"]

/-- Sample code artifact matching the spec's end-to-end scenario. -/
def egCodeAdd : Code := Code.mk "add" [Object.str "adds two numbers"] []

/-- Sample globals mapping with a module name. -/
def egGlobals : StringDict := [("__name__", Object.str "mathmod")]

/-- Sample function object (empty closure). -/
def egFun : Function := NewFunction egCode0 [] ""

/-- Sample evaluator that succeeds with the integer 7. -/
def okEval : EvalT Nat := fun _ _ _ _ _ _ _ _ => (Object.int 7, Option.none)

/-- Sample evaluator that fails with error 3. -/
def errEval : EvalT Nat := fun _ _ _ _ _ _ _ _ => (Object.none, some 3)

/-- C1: setting __code__ to a code artifact whose free-variable count
differs from the current closure length fails with a ValueError whose
message gives the expected (closure-length) and actual (free-variable)
counts, producing no updated function (the code field is unchanged);
when the counts are equal the set succeeds and the code becomes the new
artifact. -/
theorem C1_code_setter (f : Function) (c : Code) :
    (c.Freevars.length ≠ f.Closure.length →
      codeFset f (Object.code c) =
        Except.error ⟨ExcType.ValueError,
          codeMismatchMsg f.Name f.Closure.length c.Freevars.length⟩) ∧
    (c.Freevars.length = f.Closure.length →
      codeFset f (Object.code c) = Except.ok { f with Code := c }) := by
  constructor
  · intro h
    simp [codeFset, h]
  · intro h
    simp [codeFset, h]

/-- Witness for C1 at a concrete function with empty closure: a code
artifact with one free variable is rejected, one with none accepted. -/
theorem C1_code_setter_witness :
    egCode1.Freevars.length ≠ egFun.Closure.length ∧
    codeFset egFun (Object.code egCode1) =
      Except.error ⟨ExcType.ValueError,
        codeMismatchMsg egFun.Name egFun.Closure.length egCode1.Freevars.length⟩ ∧
    codeFset egFun (Object.code egCode0) = Except.ok { egFun with Code := egCode0 } :=
  ⟨by decide,
   (C1_code_setter egFun egCode1).1 (by decide),
   (C1_code_setter egFun egCode0).2 (by decide)⟩

/-- C2: M__call__ calls the evaluator once, at exactly the function's
code, globals, a fresh empty local scope, the given args and kwargs and
the current defaults, kwdefaults and closure; a successful evaluation
is returned unmodified and a failure propagates unchanged. -/
theorem C2_call_delegates {ε : Type} (eval : EvalT ε) (f : Function) (args : Tuple)
    (kwargs : StringDict) :
    (∀ r, eval f.Code f.Globals NewStringDict args kwargs f.Defaults f.KwDefaults f.Closure
        = (r, Option.none) →
      (M__call__ eval f args kwargs).1 = Except.ok r) ∧
    (∀ r e, eval f.Code f.Globals NewStringDict args kwargs f.Defaults f.KwDefaults f.Closure
        = (r, some e) →
      (M__call__ eval f args kwargs).1 = Except.error e) := by
  constructor
  · intro r h
    simp [M__call__, h]
  · intro r e h
    simp [M__call__, h]

/-- Witness for C2 at a concrete function with a succeeding and a
failing evaluator. -/
theorem C2_call_delegates_witness :
    (M__call__ okEval egFun [] []).1 = Except.ok (Object.int 7) ∧
    (M__call__ errEval egFun [] []).1 = Except.error 3 :=
  ⟨(C2_call_delegates okEval egFun [] []).1 (Object.int 7) rfl,
   (C2_call_delegates errEval egFun [] []).2 Object.none 3 rfl⟩

/-- C3: NewFunction never fails, sets name from the code artifact,
qualname from the argument (or the name when the argument is empty),
doc from the first constant when it exists and is textual (else None),
module from globals["__name__"] when present (else None), and starts
defaults, kwdefaults, closure, dict and annotation mappings empty. -/
theorem C3_construction (code : Code) (globals : StringDict) (qualname : String) :
    (NewFunction code globals qualname).Name = code.Name ∧
    (qualname ≠ "" → (NewFunction code globals qualname).Qualname = qualname) ∧
    (qualname = "" → (NewFunction code globals qualname).Qualname = code.Name) ∧
    (∀ s, code.Consts.head? = some (Object.str s) →
      (NewFunction code globals qualname).Doc = Object.str s) ∧
    (∀ d, code.Consts.head? = some d → d.isStr = false →
      (NewFunction code globals qualname).Doc = Object.none) ∧
    (code.Consts.head? = Option.none → (NewFunction code globals qualname).Doc = Object.none) ∧
    (∀ m, sdLookup globals "__name__" = some m →
      (NewFunction code globals qualname).Module = m) ∧
    (sdLookup globals "__name__" = Option.none →
      (NewFunction code globals qualname).Module = Object.none) ∧
    (NewFunction code globals qualname).Defaults = [] ∧
    (NewFunction code globals qualname).KwDefaults = [] ∧
    (NewFunction code globals qualname).Closure = [] ∧
    (NewFunction code globals qualname).Dict = [] ∧
    (NewFunction code globals qualname).Annotations = [] := by
  refine ⟨by simp [NewFunction], ?_, ?_, ?_, ?_, ?_, ?_, ?_,
    by simp [NewFunction], by simp [NewFunction], by simp [NewFunction],
    by simp [NewFunction], by simp [NewFunction]⟩
  · intro h
    simp [NewFunction, h]
  · intro h
    simp [NewFunction, h]
  · intro s h
    simp [NewFunction, h]
  · intro d h hd
    cases d <;> simp_all [NewFunction, Object.isStr]
  · intro h
    simp [NewFunction, h]
  · intro m h
    simp [NewFunction, h]
  · intro h
    simp [NewFunction, h]

/-- Witness for C3 at the spec's end-to-end scenario: code named "add"
with a textual first constant, globals binding __name__ to "mathmod",
and an empty qualname argument. -/
theorem C3_construction_witness :
    (NewFunction egCodeAdd egGlobals "").Name = "add" ∧
    (NewFunction egCodeAdd egGlobals "").Qualname = "add" ∧
    (NewFunction egCodeAdd egGlobals "").Doc = Object.str "adds two numbers" ∧
    (NewFunction egCodeAdd egGlobals "").Module = Object.str "mathmod" ∧
    (NewFunction egCodeAdd egGlobals "").Defaults = [] ∧
    (NewFunction egCodeAdd egGlobals "").Closure = [] := by
  have h := C3_construction egCodeAdd egGlobals ""
  exact ⟨h.1, h.2.2.1 rfl, h.2.2.2.1 "adds two numbers" rfl,
    h.2.2.2.2.2.2.1 (Object.str "mathmod") rfl,
    h.2.2.2.2.2.2.2.2.1, h.2.2.2.2.2.2.2.2.2.2.1⟩

/-- C4: M__get__ returns the function itself when the instance is the
no-instance sentinel, and otherwise a bound method pairing the instance
with the function. -/
theorem C4_bind (f : Function) (inst owner : Object) :
    (inst = Object.none → M__get__ f inst owner = BindResult.function f) ∧
    (inst ≠ Object.none → M__get__ f inst owner = BindResult.boundMethod inst f) := by
  constructor
  · intro h
    subst h
    rfl
  · intro h
    cases inst <;> simp_all [M__get__, Object.isNone]

/-- Witness for C4 at a concrete function, a None instance and an
integer instance. -/
theorem C4_bind_witness :
    M__get__ egFun Object.none (Object.str "owner") = BindResult.function egFun ∧
    M__get__ egFun (Object.int 5) (Object.str "owner")
      = BindResult.boundMethod (Object.int 5) egFun :=
  ⟨(C4_bind egFun Object.none (Object.str "owner")).1 rfl,
   (C4_bind egFun (Object.int 5) (Object.str "owner")).2 (fun h => Object.noConfusion h)⟩

/-- Helper: a successful set through the accessor table preserves the
closure/free-variable invariant. Setters other than __code__ leave the
Closure and Code fields untouched; the __code__ setter succeeds only
when the new artifact's free-variable count equals the closure length. -/
theorem fset_ok_closureInvariant (a : Attr) (f f' : Function) (v : Object)
    (h : fsetAttr a f v = Except.ok f') (hf : closureInvariant f) :
    closureInvariant f' := by
  cases a with
  | code =>
    cases v
    case code c =>
      simp only [fsetAttr, codeFset] at h
      split at h
      · simp at h
      · rename_i hc
        push_neg at hc
        injection h with h
        subst h
        intro _ _
        exact hc.symm
    all_goals simp [fsetAttr, codeFset] at h
  | defaults =>
    cases v
    case tuple d =>
      simp only [fsetAttr, defaultsFset] at h
      injection h with h
      subst h
      exact hf
    all_goals simp [fsetAttr, defaultsFset] at h
  | kwdefaults =>
    cases v
    case dict d =>
      simp only [fsetAttr, kwdefaultsFset] at h
      injection h with h
      subst h
      exact hf
    all_goals simp [fsetAttr, kwdefaultsFset] at h
  | annots =>
    cases v
    case dict d =>
      simp only [fsetAttr, annotationsFset] at h
      injection h with h
      subst h
      exact hf
    all_goals simp [fsetAttr, annotationsFset] at h
  | dict =>
    cases v
    case dict d =>
      simp only [fsetAttr, dictFset] at h
      injection h with h
      subst h
      exact hf
    all_goals simp [fsetAttr, dictFset] at h
  | name =>
    cases v
    case str s =>
      simp only [fsetAttr, nameFset] at h
      injection h with h
      subst h
      exact hf
    all_goals simp [fsetAttr, nameFset] at h
  | qualname =>
    cases v
    case str s =>
      simp only [fsetAttr, qualnameFset] at h
      injection h with h
      subst h
      exact hf
    all_goals simp [fsetAttr, qualnameFset] at h

/-- C5: the closure/free-variable invariant is preserved by every
successful get, set or delete of the accessor table, by binding, and by
calling. -/
theorem C5_invariant_preserved {ε : Type} (f : Function) (hf : closureInvariant f) :
    (∀ op f', applyOp op f = some f' → closureInvariant f') ∧
    (∀ inst owner, closureInvariant (M__get__ f inst owner).fn) ∧
    (∀ (eval : EvalT ε) args kwargs, closureInvariant (M__call__ eval f args kwargs).2) := by
  refine ⟨?_, ?_, ?_⟩
  · intro op f' h
    cases op with
    | get a =>
      injection h with h
      subst h
      exact hf
    | set a v =>
      simp only [applyOp] at h
      cases hok : fsetAttr a f v with
      | error e =>
        rw [hok] at h
        simp at h
      | ok g =>
        rw [hok] at h
        injection h with h
        subst h
        exact fset_ok_closureInvariant a f g v hok hf
    | del a =>
      cases a <;> simp only [applyOp, fdelAttr] at h <;>
        first
        | (injection h with h; subst h; exact hf)
        | exact Option.noConfusion h
  · intro inst owner
    unfold M__get__
    split <;> exact hf
  · intro eval args kwargs
    rcases hr : eval f.Code f.Globals NewStringDict args kwargs f.Defaults f.KwDefaults f.Closure
      with ⟨r, e⟩
    cases e <;> simp [M__call__, hr] <;> exact hf

/-- Witness for C5 at a concrete function satisfying the invariant and
a concrete delete operation. -/
theorem C5_invariant_preserved_witness :
    closureInvariant egFun ∧ closureInvariant (kwdefaultsFdel egFun) := by
  have hf : closureInvariant egFun := by
    intro h _
    exact absurd rfl h
  exact ⟨hf, (@C5_invariant_preserved Unit egFun hf).1
    (AccessorOp.set Attr.kwdefaults (Object.dict [])) (kwdefaultsFdel egFun) rfl⟩

/-- C6: the __defaults__ setter accepts any tuple (ordered sequence)
value — the set succeeds and the getter then returns it — and rejects
any non-tuple value with a TypeError, producing no updated function;
deleting __defaults__ empties the field. -/
theorem C6_defaults_setter (f : Function) (v : Object) :
    (∀ xs, v = Object.tuple xs →
      defaultsFset f v = Except.ok { f with Defaults := xs } ∧
      ∀ f', defaultsFset f v = Except.ok f' → defaultsFget f' = v) ∧
    (v.isTuple = false →
      defaultsFset f v =
        Except.error ⟨ExcType.TypeError, "__defaults__ must be set to a tuple object"⟩) ∧
    fdelAttr Attr.defaults f = some { f with Defaults := [] } := by
  refine ⟨?_, ?_, rfl⟩
  · intro xs hv
    subst hv
    refine ⟨rfl, ?_⟩
    intro f' h
    simp only [defaultsFset] at h
    injection h with h
    subst h
    rfl
  · intro hv
    cases v <;> simp_all [defaultsFset, Object.isTuple]

/-- Witness for C6 at a concrete function: a tuple is accepted, an
integer is rejected with the TypeError. -/
theorem C6_defaults_setter_witness :
    defaultsFset egFun (Object.tuple [Object.int 1]) =
      Except.ok { egFun with Defaults := [Object.int 1] } ∧
    defaultsFget { egFun with Defaults := [Object.int 1] } = Object.tuple [Object.int 1] ∧
    defaultsFset egFun (Object.int 1) =
      Except.error ⟨ExcType.TypeError, "__defaults__ must be set to a tuple object"⟩ := by
  have h1 := C6_defaults_setter egFun (Object.tuple [Object.int 1])
  have h2 := C6_defaults_setter egFun (Object.int 1)
  exact ⟨(h1.1 [Object.int 1] rfl).1, (h1.1 [Object.int 1] rfl).2 _ (h1.1 [Object.int 1] rfl).1,
    h2.2.1 rfl⟩

/-- C7: the __kwdefaults__, __annotations__ and __dict__ setters reject
any non-StringDict value, and the __name__ and __qualname__ setters any
non-String value, each with a TypeError naming the attribute, producing
no updated function; a value of the accepted category makes the set
succeed. -/
theorem C7_typed_setters (f : Function) (v : Object) :
    (v.isStringDict = false →
      kwdefaultsFset f v =
        Except.error ⟨ExcType.TypeError, "__kwdefaults__ must be set to a dict object"⟩) ∧
    (∀ d, v = Object.dict d → kwdefaultsFset f v = Except.ok { f with KwDefaults := d }) ∧
    (v.isStringDict = false →
      annotationsFset f v =
        Except.error ⟨ExcType.TypeError, "__annotations__ must be set to a dict object"⟩) ∧
    (∀ d, v = Object.dict d → annotationsFset f v = Except.ok { f with Annotations := d }) ∧
    (v.isStringDict = false →
      dictFset f v =
        Except.error ⟨ExcType.TypeError, "__dict__ must be set to a dict object"⟩) ∧
    (∀ d, v = Object.dict d → dictFset f v = Except.ok { f with Dict := d }) ∧
    (v.isStr = false →
      nameFset f v =
        Except.error ⟨ExcType.TypeError, "__name__ must be set to a string object"⟩) ∧
    (∀ s, v = Object.str s → nameFset f v = Except.ok { f with Name := s }) ∧
    (v.isStr = false →
      qualnameFset f v =
        Except.error ⟨ExcType.TypeError, "__qualname__ must be set to a string object"⟩) ∧
    (∀ s, v = Object.str s → qualnameFset f v = Except.ok { f with Qualname := s }) := by
  refine ⟨?_, ?_, ?_, ?_, ?_, ?_, ?_, ?_, ?_, ?_⟩
  · intro hv
    cases v <;> simp_all [kwdefaultsFset, Object.isStringDict]
  · intro d hv
    subst hv
    rfl
  · intro hv
    cases v <;> simp_all [annotationsFset, Object.isStringDict]
  · intro d hv
    subst hv
    rfl
  · intro hv
    cases v <;> simp_all [dictFset, Object.isStringDict]
  · intro d hv
    subst hv
    rfl
  · intro hv
    cases v <;> simp_all [nameFset, Object.isStr]
  · intro s hv
    subst hv
    rfl
  · intro hv
    cases v <;> simp_all [qualnameFset, Object.isStr]
  · intro s hv
    subst hv
    rfl

/-- Witness for C7 at a concrete function with an integer (rejected), a
dict (accepted by __kwdefaults__) and a string (accepted by __name__). -/
theorem C7_typed_setters_witness :
    kwdefaultsFset egFun (Object.int 0) =
      Except.error ⟨ExcType.TypeError, "__kwdefaults__ must be set to a dict object"⟩ ∧
    kwdefaultsFset egFun (Object.dict []) = Except.ok { egFun with KwDefaults := [] } ∧
    nameFset egFun (Object.int 0) =
      Except.error ⟨ExcType.TypeError, "__name__ must be set to a string object"⟩ ∧
    nameFset egFun (Object.str "g") = Except.ok { egFun with Name := "g" } := by
  have h1 := C7_typed_setters egFun (Object.int 0)
  have h2 := C7_typed_setters egFun (Object.dict [])
  have h3 := C7_typed_setters egFun (Object.str "g")
  exact ⟨h1.1 rfl, h2.2.1 [] rfl, h1.2.2.2.2.2.2.1 rfl, h3.2.2.2.2.2.2.2.1 "g" rfl⟩

/-- C8: deleting __defaults__, __kwdefaults__, __annotations__ or
__dict__ always succeeds and makes the field read back as the absent
(nil/empty) value, and deletion is idempotent: delete composed with
delete equals a single delete, for every attribute of the table. -/
theorem C8_delete_idempotent (f : Function) :
    fdelAttr Attr.defaults f = some { f with Defaults := [] } ∧
    fdelAttr Attr.kwdefaults f = some { f with KwDefaults := [] } ∧
    fdelAttr Attr.annots f = some { f with Annotations := [] } ∧
    fdelAttr Attr.dict f = some { f with Dict := [] } ∧
    ∀ a, (fdelAttr a f).bind (fdelAttr a) = fdelAttr a f := by
  refine ⟨rfl, rfl, rfl, rfl, ?_⟩
  intro a
  cases a <;> rfl

/-- C9: M__call__ leaves every field of the function object unchanged,
whatever the evaluator does. -/
theorem C9_call_no_side_effect {ε : Type} (eval : EvalT ε) (f : Function) (args : Tuple)
    (kwargs : StringDict) : (M__call__ eval f args kwargs).2 = f := by
  rcases hr : eval f.Code f.Globals NewStringDict args kwargs f.Defaults f.KwDefaults f.Closure
    with ⟨r, e⟩
  cases e <;> simp [M__call__, hr]

/-- C10: the no-instance sentinel is the None value itself: binding
with None as instance yields the function unbound, and binding with any
non-None instance yields a bound method. -/
theorem C10_none_sentinel (f : Function) (owner : Object) :
    M__get__ f Object.none owner = BindResult.function f ∧
    ∀ inst, inst.isNone = false →
      M__get__ f inst owner = BindResult.boundMethod inst f := by
  constructor
  · rfl
  · intro inst h
    simp [M__get__, h]

/-- Witness for C10 at a concrete function, a None instance and a
string instance. -/
theorem C10_none_sentinel_witness :
    M__get__ egFun Object.none (Object.str "T") = BindResult.function egFun ∧
    M__get__ egFun (Object.str "x") (Object.str "T")
      = BindResult.boundMethod (Object.str "x") egFun :=
  ⟨(C10_none_sentinel egFun (Object.str "T")).1,
   (C10_none_sentinel egFun (Object.str "T")).2 (Object.str "x") rfl⟩

end PyFunc
